import Mathlib

/-!
A shallow embedding of the 1password-config package (`src/index.ts`) and
proofs about its field-resolution behaviour.

The external collaborator `onePItem.get` is modelled as a function
`String → Option Item`; a falsy fetch result is `none`; a falsy item id is
the empty string.
-/

namespace OnePConfig

/-- A field of a 1Password item as exposed to `getFieldValue`: an
identifier, an optional human label, and an optional string value. -/
structure Field where
  id : String
  label : Option String
  value : Option String
  deriving DecidableEq, Repr

/-- A 1Password item: an identifier and an optional list of fields
(`item.fields` may be absent). -/
structure Item where
  id : String
  fields : Option (List Field)
  deriving DecidableEq, Repr

/-- Structured field specification: optional store-side key alias, optional
default value, optional description. -/
structure ConfigFieldSpec where
  key : Option String
  default : Option String
  description : Option String
  deriving DecidableEq, Repr

/-- A configuration entry is a bare description string or a structured
spec (`ConfigValue = string | ConfigFieldSpec`). -/
inductive ConfigValue where
  | str (s : String)
  | spec (s : ConfigFieldSpec)
  deriving DecidableEq, Repr

/-- Resolved per-field result: value, matched flag, carried description. -/
structure ConfigResult where
  value : Option String
  matched : Bool
  description : Option String
  deriving DecidableEq, Repr

/-- Options record: `detailedResult?: boolean` (absent means `false`). -/
structure GetConfigOptions where
  detailedResult : Option Bool
  deriving DecidableEq, Repr

/-- `toLowerCase`: lower-case every character of a string (kernel-reducible
counterpart of `String.toLower`). -/
def strToLower (s : String) : String :=
  ⟨s.data.map Char.toLower⟩

/-- The matching predicate used by `getFieldValue`:
`f.id === fieldId || f.label?.toLowerCase() === fieldId.toLowerCase()`.
When the label is absent the label comparison is false. -/
def fieldMatches (fieldId : String) (f : Field) : Bool :=
  f.id == fieldId || f.label.map strToLower == some (strToLower fieldId)

/-- `getFieldValue(item, fieldId)`: `item.fields?.find(...)` followed by
`field?.value` — the first field matching by exact id or case-insensitive
label, then its (possibly undefined) value. -/
def getFieldValue (item : Item) (fieldId : String) : Option String :=
  match item.fields with
  | none => none
  | some fs =>
    match fs.find? (fieldMatches fieldId) with
    | none => none
    | some field => field.value

/-- The lookup key derived per entry (source lines 83-92): the declared key
for a bare string; `configValue.key || configKey` for a structured spec —
JS `||`, so an empty-string key is falsy and falls back to the declared
key. -/
def lookupKeyOf (configKey : String) (cv : ConfigValue) : String :=
  match cv with
  | .str _ => configKey
  | .spec s =>
    match s.key with
    | some k => if k = "" then configKey else k
    | none => configKey

/-- The default value derived per entry: absent for a bare string,
`configValue.default` for a structured spec. -/
def defaultValueOf (cv : ConfigValue) : Option String :=
  match cv with
  | .str _ => none
  | .spec s => s.default

/-- The description derived per entry: the bare string itself, or
`configValue.description` for a structured spec. -/
def descriptionOf (cv : ConfigValue) : Option String :=
  match cv with
  | .str s => some s
  | .spec s => s.description

/-- One iteration of the `Object.entries(keyOptions).forEach` body
(source lines 78-103). -/
def resolveEntry (item : Item) (configKey : String) (cv : ConfigValue) :
    ConfigResult :=
  let fieldKey := lookupKeyOf configKey cv
  let defaultValue := defaultValueOf cv
  let foundValue := getFieldValue item fieldKey
  let matched := foundValue.isSome
  let finalValue := if matched then foundValue else defaultValue
  ⟨finalValue, matched, descriptionOf cv⟩

/-- The returned object: simple shape (values only) or detailed shape. -/
inductive ConfigOutput where
  | simple (m : List (String × Option String))
  | detailed (m : List (String × ConfigResult))
  deriving DecidableEq, Repr

/-- The error message thrown when the fetch yields no usable item. -/
def itemNotFoundMsg (idOrName : String) : String :=
  s!"Item with name or UUID \"{idOrName}\" not found."

/-- The intermediate `detailedResult_tmp` map: every declared key, in
order, paired with its resolved result. -/
def detailedResultTmp (item : Item) (keyOptions : List (String × ConfigValue)) :
    List (String × ConfigResult) :=
  keyOptions.map (fun p => (p.1, resolveEntry item p.1 p.2))

/-- `getConfig`: fetch the item through the collaborator, throw when the
result is falsy or its id is falsy, otherwise build the detailed map and
shape the output according to `options.detailedResult` (default false). -/
def getConfig (onePItemGet : String → Option Item) (idOrName : String)
    (keyOptions : List (String × ConfigValue)) (options : GetConfigOptions) :
    Except String ConfigOutput :=
  match onePItemGet idOrName with
  | none => Except.error (itemNotFoundMsg idOrName)
  | some onePConfigResult =>
    if onePConfigResult.id = "" then
      Except.error (itemNotFoundMsg idOrName)
    else
      let detailed := options.detailedResult.getD false
      let tmp := detailedResultTmp onePConfigResult keyOptions
      if detailed then
        Except.ok (ConfigOutput.detailed tmp)
      else
        Except.ok (ConfigOutput.simple (tmp.map (fun p => (p.1, p.2.value))))

/-- The key-alias component of a spec: absent for a bare string,
`spec.key` for a structured spec. Together with `defaultValueOf` this is
everything except the description that an entry contributes to
resolution. -/
def keyAliasOf (cv : ConfigValue) : Option String :=
  match cv with
  | .str _ => none
  | .spec s => s.key

deriving instance DecidableEq for Except

/-- Sample item whose id is falsy (the empty string). -/
def itemFalsyId : Item :=
  ⟨"", some [⟨"k", none, some "v"⟩]⟩

/-- Sample item whose first field matching "k" has an undefined value while
a later field matching "k" has a defined value. -/
def itemShadow : Item :=
  ⟨"I1", some [⟨"k", none, none⟩, ⟨"k", none, some "late"⟩]⟩

/-- Sample item with a single field `user = alice`. -/
def itemUser : Item :=
  ⟨"I2", some [⟨"user", none, some "alice"⟩]⟩

/-- Sample item with an empty-string field identifier alongside a normal
one. -/
def itemEmptyId : Item :=
  ⟨"I3", some [⟨"", none, some "empty-id-val"⟩, ⟨"a", none, some "a-val"⟩]⟩

/-- Sample item with no fields collection at all. -/
def itemNoFields : Item :=
  ⟨"I4", none⟩

/-- C1: field matching scans the item's field list in order and selects the
first field whose id equals the lookup key exactly or whose label,
lower-cased, equals the lookup key lower-cased; the lookup is defined (and
hence the field matched) iff that first field exists and its value is
defined — so a first structural match with an undefined value yields no
value even if a later field would match with a defined one. -/
theorem C1_first_match_semantics (item : Item) (k : String) (fs : List Field)
    (hfs : item.fields = some fs) :
    (∀ f, fs.find? (fieldMatches k) = some f → getFieldValue item k = f.value) ∧
    ((getFieldValue item k).isSome ↔
      ∃ f, fs.find? (fieldMatches k) = some f ∧ f.value.isSome) ∧
    (∀ g, fieldMatches k g = true ↔
      (g.id = k ∨ ∃ l, g.label = some l ∧ strToLower l = strToLower k)) := by
  refine ⟨?_, ?_, ?_⟩
  · intro f hfind
    simp [getFieldValue, hfs, hfind]
  · cases hfind : fs.find? (fieldMatches k) with
    | none => simp [getFieldValue, hfs, hfind]
    | some f => simp [getFieldValue, hfs, hfind]
  · intro g
    simp [fieldMatches, Option.map_eq_some']

/-- C1 witness: on `itemShadow`, the first field matching "k" has an
undefined value, so the lookup yields nothing even though the second field
matches "k" with value "late". -/
theorem C1_witness :
    getFieldValue itemShadow "k" = none ∧
    fieldMatches "k" ⟨"k", none, some "late"⟩ = true := by
  have h := (C1_first_match_semantics itemShadow "k"
    [⟨"k", none, none⟩, ⟨"k", none, some "late"⟩] rfl).1
    ⟨"k", none, none⟩ (by decide)
  exact ⟨h, by decide⟩

/-- C2: when the lookup of an entry's derived key yields nothing, the entry
resolves with `matched = false` and its value equal to the spec's default
(which is `none` when no default is given); defaults never make `matched`
true, and resolution is total (no error is possible at field level). -/
theorem C2_unmatched_uses_default (item : Item) (ck : String) (cv : ConfigValue)
    (h : getFieldValue item (lookupKeyOf ck cv) = none) :
    (resolveEntry item ck cv).matched = false ∧
    (resolveEntry item ck cv).value = defaultValueOf cv := by
  simp [resolveEntry, h]

/-- C2 witness: the key "missing" matches nothing in `itemUser`, so a spec
with default "dflt" resolves to value "dflt" with `matched = false`. -/
theorem C2_witness :
    (resolveEntry itemUser "missing" (ConfigValue.spec ⟨none, some "dflt", none⟩)).matched = false ∧
    (resolveEntry itemUser "missing" (ConfigValue.spec ⟨none, some "dflt", none⟩)).value = some "dflt" := by
  have h := C2_unmatched_uses_default itemUser "missing"
    (ConfigValue.spec ⟨none, some "dflt", none⟩) (by decide)
  exact ⟨h.1, h.2.trans (by decide)⟩

/-- C3 counterexample: with declared key "a" and a structured spec whose
`key` is present but equal to the empty string, the code resolves against
the declared key "a" (obtaining "a-val"), not against the present
`spec.key` "" (which would have obtained "empty-id-val"): an empty-string
`spec.key` is falsy under the JS `||` on source line 89 and falls back. -/
theorem C3_counterexample :
    lookupKeyOf "a" (ConfigValue.spec ⟨some "", none, none⟩) ≠ "" ∧
    (resolveEntry itemEmptyId "a" (ConfigValue.spec ⟨some "", none, none⟩)).value = some "a-val" ∧
    getFieldValue itemEmptyId "" = some "empty-id-val" := by
  refine ⟨by decide, by decide, by decide⟩

/-- C3 amended: for a structured spec the lookup key is `spec.key` when
present and non-empty, and the declared key when `spec.key` is absent or
the empty string; resolution (matched flag and value) is then performed
against that lookup key, not the declared key. -/
theorem C3_structured_key_resolution (item : Item) (ck : String)
    (s : ConfigFieldSpec) :
    (∀ k, s.key = some k → k ≠ "" →
      lookupKeyOf ck (ConfigValue.spec s) = k ∧
      (resolveEntry item ck (ConfigValue.spec s)).matched = (getFieldValue item k).isSome ∧
      (resolveEntry item ck (ConfigValue.spec s)).value =
        (if (getFieldValue item k).isSome then getFieldValue item k else s.default)) ∧
    ((s.key = none ∨ s.key = some "") →
      lookupKeyOf ck (ConfigValue.spec s) = ck) := by
  constructor
  · intro k hk hne
    have hl : lookupKeyOf ck (ConfigValue.spec s) = k := by
      simp [lookupKeyOf, hk, hne]
    exact ⟨hl, by simp [resolveEntry, hl], by simp [resolveEntry, hl, defaultValueOf]⟩
  · rintro (hk | hk) <;> simp [lookupKeyOf, hk]

/-- C3 witness: declared key "accessKey" with spec key "user" resolves
against the item's "user" field. -/
theorem C3_witness :
    lookupKeyOf "accessKey" (ConfigValue.spec ⟨some "user", none, none⟩) = "user" ∧
    (resolveEntry itemUser "accessKey" (ConfigValue.spec ⟨some "user", none, none⟩)).value = some "alice" := by
  have h := (C3_structured_key_resolution itemUser "accessKey"
    ⟨some "user", none, none⟩).1 "user" rfl (by decide)
  exact ⟨h.1, h.2.2.trans (by decide)⟩

/-- C7: a bare-string spec resolves with the declared key as lookup key,
no default value, and the bare string carried through as the description;
its matched flag and value come from looking up the declared key itself. -/
theorem C7_bare_string_spec (item : Item) (ck s : String) :
    lookupKeyOf ck (ConfigValue.str s) = ck ∧
    defaultValueOf (ConfigValue.str s) = none ∧
    (resolveEntry item ck (ConfigValue.str s)).description = some s ∧
    (resolveEntry item ck (ConfigValue.str s)).matched = (getFieldValue item ck).isSome ∧
    (resolveEntry item ck (ConfigValue.str s)).value = getFieldValue item ck := by
  refine ⟨rfl, rfl, rfl, rfl, ?_⟩
  simp only [resolveEntry, lookupKeyOf, defaultValueOf]
  cases getFieldValue item ck <;> simp

/-- C4: whenever the detailed shape of a call succeeds with detailed map
`d`, the simple shape of the same call (whether requested explicitly or by
default) succeeds with exactly `d` projected entrywise to its value
component — the simple output is obtained from the intermediate detailed
map by projection only. -/
theorem C4_simple_is_projection (get : String → Option Item) (idOrName : String)
    (ko : List (String × ConfigValue)) (d : List (String × ConfigResult))
    (h : getConfig get idOrName ko ⟨some true⟩ = Except.ok (ConfigOutput.detailed d)) :
    getConfig get idOrName ko ⟨some false⟩ =
      Except.ok (ConfigOutput.simple (d.map (fun p => (p.1, p.2.value)))) ∧
    getConfig get idOrName ko ⟨none⟩ =
      Except.ok (ConfigOutput.simple (d.map (fun p => (p.1, p.2.value)))) := by
  cases hg : get idOrName with
  | none => simp [getConfig, hg] at h
  | some item =>
    by_cases hid : item.id = ""
    · simp [getConfig, hg, hid] at h
    · simp only [getConfig, hg, hid, if_false] at h
      simp only [Option.getD, if_true, Except.ok.injEq, ConfigOutput.detailed.injEq] at h
      constructor <;> simp [getConfig, hg, hid, h]

/-- C4 witness: a concrete simple-shape call equals the projection of its
detailed map. -/
theorem C4_witness :
    getConfig (fun _ => some itemUser) "cfg" [("user", ConfigValue.str "d")] ⟨some false⟩ =
      Except.ok (ConfigOutput.simple [("user", some "alice")]) := by
  have h := C4_simple_is_projection (fun _ => some itemUser) "cfg"
    [("user", ConfigValue.str "d")]
    (detailedResultTmp itemUser [("user", ConfigValue.str "d")]) (by decide)
  exact h.1.trans (by decide)

/-- C5: when the item retriever reports no item for the identifier,
`getConfig` fails with the not-found error, whose message carries the
requested identifier, and no ok result — partial or otherwise — is
produced. -/
theorem C5_item_not_found_fails (get : String → Option Item) (idOrName : String)
    (ko : List (String × ConfigValue)) (opts : GetConfigOptions)
    (h : get idOrName = none) :
    getConfig get idOrName ko opts = Except.error (itemNotFoundMsg idOrName) ∧
    itemNotFoundMsg idOrName =
      "Item with name or UUID \"" ++ idOrName ++ "\" not found." ∧
    ∀ out, getConfig get idOrName ko opts ≠ Except.ok out := by
  have h1 : getConfig get idOrName ko opts = Except.error (itemNotFoundMsg idOrName) := by
    simp [getConfig, h]
  refine ⟨h1, rfl, fun out hout => ?_⟩
  rw [h1] at hout
  exact Except.noConfusion hout

/-- C5 witness: a fetch that returns nothing makes the whole call fail with
the not-found error for the requested identifier. -/
theorem C5_witness :
    getConfig (fun _ => none) "prod-cfg" [("k", ConfigValue.str "d")] ⟨none⟩ =
      Except.error (itemNotFoundMsg "prod-cfg") :=
  (C5_item_not_found_fails (fun _ => none) "prod-cfg"
    [("k", ConfigValue.str "d")] ⟨none⟩ rfl).1

/-- C6: for every field map and successfully fetched item, the result's key
list — in detailed and in simple shape — equals the field map's key list
(hence the key sets agree, each declared key appears exactly as declared
and no other key is introduced); an empty field map yields an empty result
object regardless of the item's contents. -/
theorem C6_result_keys (get : String → Option Item) (idOrName : String)
    (ko : List (String × ConfigValue)) (item : Item)
    (hf : get idOrName = some item) (hid : item.id ≠ "") :
    (∃ d, getConfig get idOrName ko ⟨some true⟩ = Except.ok (ConfigOutput.detailed d) ∧
      d.map Prod.fst = ko.map Prod.fst) ∧
    (∃ sm, getConfig get idOrName ko ⟨some false⟩ = Except.ok (ConfigOutput.simple sm) ∧
      sm.map Prod.fst = ko.map Prod.fst) ∧
    (ko = [] →
      getConfig get idOrName ko ⟨some true⟩ = Except.ok (ConfigOutput.detailed []) ∧
      getConfig get idOrName ko ⟨some false⟩ = Except.ok (ConfigOutput.simple [])) := by
  refine ⟨⟨detailedResultTmp item ko, ?_, ?_⟩,
    ⟨(detailedResultTmp item ko).map (fun p => (p.1, p.2.value)), ?_, ?_⟩, ?_⟩
  · simp [getConfig, hf, hid]
  · simp [detailedResultTmp]
  · simp [getConfig, hf, hid]
  · simp [detailedResultTmp, List.map_map, Function.comp]
  · rintro rfl
    exact ⟨by simp [getConfig, hf, hid, detailedResultTmp],
      by simp [getConfig, hf, hid, detailedResultTmp]⟩

/-- C6 witness: an empty field map against a non-empty item yields an empty
detailed result object. -/
theorem C6_witness :
    getConfig (fun _ => some itemUser) "cfg" [] ⟨some true⟩ =
      Except.ok (ConfigOutput.detailed []) :=
  ((C6_result_keys (fun _ => some itemUser) "cfg" [] itemUser rfl
    (by decide)).2.2 rfl).1

/-- C9: when the fetched item has no fields collection at all, `getConfig`
does not fail: every lookup returns nothing, so every declared field
resolves with `matched = false` and value equal to its default when
provided, else absent. -/
theorem C9_no_fields_collection (get : String → Option Item) (idOrName : String)
    (ko : List (String × ConfigValue)) (item : Item)
    (hf : get idOrName = some item) (hid : item.id ≠ "") (hfl : item.fields = none) :
    (∀ k, getFieldValue item k = none) ∧
    getConfig get idOrName ko ⟨some true⟩ =
      Except.ok (ConfigOutput.detailed (ko.map (fun p =>
        (p.1, ⟨defaultValueOf p.2, false, descriptionOf p.2⟩)))) := by
  have hgf : ∀ k, getFieldValue item k = none := fun k => by
    simp [getFieldValue, hfl]
  refine ⟨hgf, ?_⟩
  have htmp : detailedResultTmp item ko = ko.map (fun p =>
      (p.1, ⟨defaultValueOf p.2, false, descriptionOf p.2⟩)) := by
    apply List.map_congr_left
    intro p _
    simp [resolveEntry, hgf]
  simp [getConfig, hf, hid, htmp]

/-- C9 witness: an item without a fields collection resolves every declared
field from its default, unmatched, without failing. -/
theorem C9_witness :
    getConfig (fun _ => some itemNoFields) "cfg"
      [("k", ConfigValue.spec ⟨none, some "dv", none⟩)] ⟨some true⟩ =
      Except.ok (ConfigOutput.detailed [("k", ⟨some "dv", false, none⟩)]) := by
  have h := C9_no_fields_collection (fun _ => some itemNoFields) "cfg"
    [("k", ConfigValue.spec ⟨none, some "dv", none⟩)] itemNoFields rfl
    (by decide) rfl
  exact h.2.trans (by decide)

/-- C10: the not-found error is raised not only when the fetch reports no
item but also when the fetched item's id is falsy, and in either case the
outcome is the same error regardless of the field map and options — no
field resolution influences the result. -/
theorem C10_falsy_fetch_result (get : String → Option Item) (idOrName : String)
    (ko ko₂ : List (String × ConfigValue)) (opts opts₂ : GetConfigOptions)
    (h : get idOrName = none ∨ ∃ item, get idOrName = some item ∧ item.id = "") :
    getConfig get idOrName ko opts = Except.error (itemNotFoundMsg idOrName) ∧
    getConfig get idOrName ko opts = getConfig get idOrName ko₂ opts₂ := by
  have he : ∀ (l : List (String × ConfigValue)) (o : GetConfigOptions),
      getConfig get idOrName l o = Except.error (itemNotFoundMsg idOrName) := by
    intro l o
    rcases h with h | ⟨item, hf, hid⟩
    · simp [getConfig, h]
    · simp [getConfig, hf, hid]
  exact ⟨he ko opts, (he ko opts).trans (he ko₂ opts₂).symm⟩

/-- C10 witness: a fetched item with an empty id fails with the not-found
error even though its fields could have resolved the declared key. -/
theorem C10_witness :
    getConfig (fun _ => some itemFalsyId) "cfg" [("k", ConfigValue.str "d")] ⟨some true⟩ =
      Except.error (itemNotFoundMsg "cfg") :=
  (C10_falsy_fetch_result (fun _ => some itemFalsyId) "cfg"
    [("k", ConfigValue.str "d")] [] ⟨some true⟩ ⟨none⟩
    (Or.inr ⟨itemFalsyId, rfl, rfl⟩)).1

/-- The lookup key depends on an entry only through its key alias. -/
theorem lookupKeyOf_congr (ck : String) (cv₁ cv₂ : ConfigValue)
    (hk : keyAliasOf cv₁ = keyAliasOf cv₂) :
    lookupKeyOf ck cv₁ = lookupKeyOf ck cv₂ := by
  have h₁ : ∀ cv : ConfigValue, lookupKeyOf ck cv =
      (match keyAliasOf cv with
        | some k => if k = "" then ck else k
        | none => ck) := by
    intro cv
    cases cv <;> rfl
  rw [h₁, h₁, hk]

/-- The value and matched components of a resolved entry depend only on the
entry's key alias and default, never on its description. -/
theorem resolveEntry_congr (item : Item) (ck : String) (cv₁ cv₂ : ConfigValue)
    (hk : keyAliasOf cv₁ = keyAliasOf cv₂)
    (hd : defaultValueOf cv₁ = defaultValueOf cv₂) :
    (resolveEntry item ck cv₁).value = (resolveEntry item ck cv₂).value ∧
    (resolveEntry item ck cv₁).matched = (resolveEntry item ck cv₂).matched := by
  have hl := lookupKeyOf_congr ck cv₁ cv₂ hk
  constructor <;> simp [resolveEntry, hl, hd]

/-- The detailed maps of two field maps agreeing on declared keys, key
aliases and defaults agree on declared keys, values and matched flags. -/
theorem detailedResultTmp_congr (item : Item)
    (ko₁ ko₂ : List (String × ConfigValue))
    (h : ko₁.map (fun p => (p.1, keyAliasOf p.2, defaultValueOf p.2)) =
         ko₂.map (fun p => (p.1, keyAliasOf p.2, defaultValueOf p.2))) :
    (detailedResultTmp item ko₁).map (fun p => (p.1, p.2.value, p.2.matched)) =
    (detailedResultTmp item ko₂).map (fun p => (p.1, p.2.value, p.2.matched)) := by
  induction ko₁ generalizing ko₂ with
  | nil =>
    cases ko₂ with
    | nil => rfl
    | cons b bs => simp at h
  | cons a as ih =>
    cases ko₂ with
    | nil => simp at h
    | cons b bs =>
      simp only [List.map_cons, List.cons.injEq, Prod.mk.injEq] at h
      obtain ⟨⟨h1, h2, h3⟩, htl⟩ := h
      have hent := resolveEntry_congr item a.1 a.2 b.2 h2 h3
      simp only [detailedResultTmp, List.map_cons, List.cons.injEq, Prod.mk.injEq]
      exact ⟨⟨h1, h1 ▸ hent.1, h1 ▸ hent.2⟩, ih bs htl⟩

/-- C8: for one item and two field maps with the same declared keys, the
same key aliases and the same defaults — differing only in description
components — `getConfig` produces results whose value and matched
components agree at every declared key, and identical simple outputs: the
description has no effect on resolution. -/
theorem C8_description_noninterference (get : String → Option Item)
    (idOrName : String) (ko₁ ko₂ : List (String × ConfigValue)) (item : Item)
    (hf : get idOrName = some item) (hid : item.id ≠ "")
    (h : ko₁.map (fun p => (p.1, keyAliasOf p.2, defaultValueOf p.2)) =
         ko₂.map (fun p => (p.1, keyAliasOf p.2, defaultValueOf p.2))) :
    (∃ d₁ d₂,
      getConfig get idOrName ko₁ ⟨some true⟩ = Except.ok (ConfigOutput.detailed d₁) ∧
      getConfig get idOrName ko₂ ⟨some true⟩ = Except.ok (ConfigOutput.detailed d₂) ∧
      d₁.map (fun p => (p.1, p.2.value, p.2.matched)) =
        d₂.map (fun p => (p.1, p.2.value, p.2.matched))) ∧
    getConfig get idOrName ko₁ ⟨some false⟩ = getConfig get idOrName ko₂ ⟨some false⟩ := by
  have hobs := detailedResultTmp_congr item ko₁ ko₂ h
  refine ⟨⟨detailedResultTmp item ko₁, detailedResultTmp item ko₂,
    by simp [getConfig, hf, hid], by simp [getConfig, hf, hid], hobs⟩, ?_⟩
  have hval : (detailedResultTmp item ko₁).map (fun p => (p.1, p.2.value)) =
      (detailedResultTmp item ko₂).map (fun p => (p.1, p.2.value)) := by
    have := congrArg (List.map (fun q : String × Option String × Bool => (q.1, q.2.1))) hobs
    simpa [List.map_map, Function.comp] using this
  simp [getConfig, hf, hid, hval]

/-- C8 witness: a bare-string spec and a structured spec that differ only
in their descriptions produce identical simple outputs on a concrete
item. -/
theorem C8_witness :
    getConfig (fun _ => some itemUser) "cfg" [("user", ConfigValue.str "descA")]
      ⟨some false⟩ =
    getConfig (fun _ => some itemUser) "cfg"
      [("user", ConfigValue.spec ⟨none, none, some "descB"⟩)] ⟨some false⟩ :=
  (C8_description_noninterference (fun _ => some itemUser) "cfg"
    [("user", ConfigValue.str "descA")]
    [("user", ConfigValue.spec ⟨none, none, some "descB"⟩)] itemUser rfl
    (by decide) (by decide)).2

end OnePConfig
